import Mathlib

/-!
Verification of the Resource Allocation & Assignment Engine of the
internal-portal repository, shallowly embedded from
`src/lib/resourceAssignmentService.ts` and the assignment route handlers.

Database rows are modelled as Lean structures; the Prisma queries that
prefetch a resource together with its AVAILABLE items and ACTIVE
assignments are modelled by explicit list filters; `prisma.$transaction`
is modelled as all-or-nothing state update.  Identifiers are `Nat`,
timestamps are `Nat`, JS `number` quantities are `Int`.
-/

/-- Enumeration of assignment categories (`AssignmentType` in the source). -/
inductive AssignmentType where
  | INDIVIDUAL
  | POOLED
  | SHARED
deriving DecidableEq, Repr

/-- Enumeration of resource allocation modes (`AllocationType` in the source). -/
inductive AllocationType where
  | EXCLUSIVE
  | SHARED
deriving DecidableEq, Repr

/-- Enumeration of assignment statuses (Prisma enum `AssignmentStatus`). -/
inductive AssignmentStatus where
  | ACTIVE
  | RETURNED
  | LOST
  | DAMAGED
deriving DecidableEq, Repr

/-- Enumeration of item statuses (Prisma enum `ItemStatus`). -/
inductive ItemStatus where
  | AVAILABLE
  | ASSIGNED
  | MAINTENANCE
  | LOST
  | DAMAGED
deriving DecidableEq, Repr

/-- Enumeration of resource statuses (Prisma enum `ResourceStatus`). -/
inductive ResourceStatus where
  | ACTIVE
  | RETURNED
  | LOST
  | DAMAGED
deriving DecidableEq, Repr

/-- Row of the `ResourceItem` table (the fields the engine reads). -/
structure Item where
  id : Nat
  resourceId : Nat
  status : ItemStatus
deriving DecidableEq, Repr

/-- Row of the `ResourceAssignment` table (the fields the engine reads). -/
structure Assignment where
  id : Nat
  resourceId : Nat
  employeeId : Nat
  itemId : Option Nat
  assignedBy : Nat
  assignmentType : AssignmentType
  status : AssignmentStatus
  quantityAssigned : Int
  assignedAt : Nat
  returnedAt : Option Nat
  returnReason : Option String
  notes : Option String
deriving DecidableEq, Repr

/-- Row of the `Resource` table.  `typeName` stands for
`resource.resourceTypeEntity?.name || resource.type` (the service always
reads the two through that single expression); `allocationType` and
`quantity` are nullable columns. -/
structure Resource where
  id : Nat
  typeName : String
  allocationType : Option AllocationType
  quantity : Option Int
  status : ResourceStatus
deriving DecidableEq, Repr

/-- Database state visible to the engine.  Employees are reduced to the
set of their identifiers, which is all the validator reads of them. -/
structure DB where
  resources : List Resource
  items : List Item
  assignments : List Assignment
  employees : List Nat
deriving DecidableEq, Repr

/-- Shape `CreateAssignmentRequest` of the inbound creation request. -/
structure CreateAssignmentRequest where
  resourceId : Nat
  employeeId : Nat
  itemId : Option Nat
  assignmentType : Option AssignmentType
  notes : Option String
deriving DecidableEq, Repr

/-- Shape `UpdateAssignmentRequest` of the inbound transition request. -/
structure UpdateAssignmentRequest where
  status : AssignmentStatus
  notes : Option String
  returnedAt : Option Nat
deriving DecidableEq, Repr

/-- Result shape `AssignmentValidationResult` of the validators. -/
structure AssignmentValidationResult where
  isValid : Bool
  error : Option String := none
  errorCode : Option String := none
  suggestedAssignmentType : Option AssignmentType := none
  allocationType : Option AllocationType := none
  currentAssignments : Option Nat := none
  maxCapacity : Option Int := none
deriving DecidableEq, Repr

/-- Result shape `AssignmentResult` of the lifecycle operations. -/
structure AssignmentResult where
  success : Bool
  assignment : Option Assignment := none
  error : Option String := none
  errorCode : Option String := none
deriving DecidableEq, Repr

/-- Embedding of the JS builtin `String.prototype.toUpperCase` as
character-wise uppercase (all type names compared are ASCII). -/
def toUpperCase (s : String) : String := String.mk (s.data.map Char.toUpper)

/-- Determines the appropriate assignment type based on resource type
(function `determineAssignmentType`, service lines 54-78). -/
def determineAssignmentType (resourceTypeName : String)
    (requestedType : Option AssignmentType) : AssignmentType :=
  let normalizedType := toUpperCase resourceTypeName
  if normalizedType = "HARDWARE" ∨ normalizedType = "PHYSICAL" then
    AssignmentType.INDIVIDUAL
  else if normalizedType = "SOFTWARE" then
    if requestedType = some AssignmentType.POOLED then AssignmentType.POOLED
    else AssignmentType.INDIVIDUAL
  else if normalizedType = "CLOUD" then
    AssignmentType.SHARED
  else
    requestedType.getD AssignmentType.INDIVIDUAL

/-- Resource row as fetched by the validation query of
`validateAssignmentRequest` (service lines 88-99): the resource together
with its items filtered to status AVAILABLE and its assignments filtered
to status ACTIVE. -/
structure FetchedResource where
  id : Nat
  typeName : String
  allocationType : Option AllocationType
  quantity : Option Int
  status : ResourceStatus
  items : List Item
  assignments : List Assignment
deriving DecidableEq, Repr

/-- Embedding of the `prisma.resource.findUnique` call with the include
clauses of service lines 88-99. -/
def fetchResource (db : DB) (rid : Nat) : Option FetchedResource :=
  (db.resources.find? (fun r => r.id == rid)).map (fun r =>
    { id := r.id, typeName := r.typeName, allocationType := r.allocationType,
      quantity := r.quantity, status := r.status,
      items := db.items.filter
        (fun i => i.resourceId == r.id && i.status == ItemStatus.AVAILABLE),
      assignments := db.assignments.filter
        (fun a => a.resourceId == r.id && a.status == AssignmentStatus.ACTIVE) })

/-- Embedding of the JS idiom `resource.quantity || 1` (null and 0 are
falsy, so both fall back to 1). -/
def jsQuantityOrOne (q : Option Int) : Int :=
  match q with
  | none => 1
  | some v => if v = 0 then 1 else v

/-- Validates assignment based on allocation type constraints (function
`validateAllocationTypeConstraints`, service lines 164-264). -/
def validateAllocationTypeConstraints (resource : FetchedResource)
    (request : CreateAssignmentRequest) (allocationType : AllocationType)
    (suggestedAssignmentType : AssignmentType) : AssignmentValidationResult :=
  let activeAssignments := resource.assignments.filter
    (fun a => a.status == AssignmentStatus.ACTIVE)
  let activeAssignmentCount := activeAssignments.length
  match allocationType with
  | AllocationType.EXCLUSIVE =>
    match request.itemId with
    | none =>
      if resource.items.length = 0 then
        { isValid := false,
          error := some "No available items for this exclusive resource. All items are assigned or unavailable.",
          errorCode := some "NO_AVAILABLE_ITEMS",
          suggestedAssignmentType := some suggestedAssignmentType,
          allocationType := some allocationType }
      else
        { isValid := false,
          error := some "Item selection is required for exclusive resources",
          errorCode := some "ITEM_REQUIRED",
          suggestedAssignmentType := some suggestedAssignmentType,
          allocationType := some allocationType }
    | some itemId =>
      if (activeAssignments.find? (fun a => a.itemId == some itemId)).isSome then
        { isValid := false,
          error := some "This item is already assigned to another employee",
          errorCode := some "ITEM_ALREADY_ASSIGNED",
          suggestedAssignmentType := some suggestedAssignmentType,
          allocationType := some allocationType }
      else if (resource.items.find? (fun i => i.id == itemId)).isNone then
        { isValid := false,
          error := some "The specified item is not available for assignment. It may already be assigned or in maintenance.",
          errorCode := some "ITEM_NOT_AVAILABLE",
          suggestedAssignmentType := some suggestedAssignmentType,
          allocationType := some allocationType }
      else
        { isValid := true,
          suggestedAssignmentType := some suggestedAssignmentType,
          allocationType := some allocationType }
  | AllocationType.SHARED =>
    if (activeAssignments.find? (fun a => a.employeeId == request.employeeId)).isSome then
      { isValid := false,
        error := some "Employee already has access to this shared resource",
        errorCode := some "ALREADY_ASSIGNED",
        suggestedAssignmentType := some suggestedAssignmentType,
        allocationType := some allocationType }
    else
      match resource.quantity with
      | some quantity =>
        if quantity ≠ -1 then
          if (activeAssignmentCount : Int) ≥ quantity then
            { isValid := false,
              error := some "This resource has reached its maximum capacity",
              errorCode := some "CAPACITY_REACHED",
              suggestedAssignmentType := some suggestedAssignmentType,
              allocationType := some allocationType,
              currentAssignments := some activeAssignmentCount,
              maxCapacity := some quantity }
          else
            { isValid := true,
              suggestedAssignmentType := some suggestedAssignmentType,
              allocationType := some allocationType }
        else
          { isValid := true,
            suggestedAssignmentType := some suggestedAssignmentType,
            allocationType := some allocationType }
      | none =>
        { isValid := true,
          suggestedAssignmentType := some suggestedAssignmentType,
          allocationType := some allocationType }

/-- Validates hardware assignment (function `validateHardwareAssignment`,
service lines 271-329).  Rejections carry a message but no errorCode. -/
def validateHardwareAssignment (resource : FetchedResource)
    (request : CreateAssignmentRequest) (suggestedType : AssignmentType) :
    AssignmentValidationResult :=
  match request.itemId with
  | none =>
    if resource.items.length = 0 then
      { isValid := false,
        error := some "No available items for this hardware resource. All items are assigned or unavailable.",
        suggestedAssignmentType := some suggestedType }
    else
      { isValid := false,
        error := some "Hardware resources require assignment to a specific item. Please provide an itemId.",
        suggestedAssignmentType := some suggestedType }
  | some itemId =>
    if (resource.items.find? (fun i => i.id == itemId)).isNone then
      { isValid := false,
        error := some "The specified item is not available for assignment. It may already be assigned or in maintenance.",
        suggestedAssignmentType := some suggestedType }
    else if (resource.assignments.find? (fun a =>
        a.itemId == some itemId && a.status == AssignmentStatus.ACTIVE)).isSome then
      { isValid := false,
        error := some "This hardware item is already assigned to another user. It must be returned before reassignment.",
        suggestedAssignmentType := some suggestedType }
    else if (resource.assignments.find? (fun a =>
        a.employeeId == request.employeeId && a.itemId == some itemId &&
        a.status == AssignmentStatus.ACTIVE)).isSome then
      { isValid := false,
        error := some "Employee already has this hardware item assigned.",
        suggestedAssignmentType := some suggestedType }
    else
      { isValid := true, suggestedAssignmentType := some suggestedType }

/-- Validates software assignment (function `validateSoftwareAssignment`,
service lines 335-406). -/
def validateSoftwareAssignment (resource : FetchedResource)
    (request : CreateAssignmentRequest) (suggestedType : AssignmentType) :
    AssignmentValidationResult :=
  if suggestedType = AssignmentType.POOLED then
    let activeAssignments := (resource.assignments.filter
      (fun a => a.status == AssignmentStatus.ACTIVE)).length
    let maxLicenses := jsQuantityOrOne resource.quantity
    if (activeAssignments : Int) ≥ maxLicenses then
      { isValid := false,
        error := some ("No available licenses in the pool. " ++
          toString activeAssignments ++ "/" ++ toString maxLicenses ++
          " licenses are in use."),
        suggestedAssignmentType := some suggestedType }
    else if (resource.assignments.find? (fun a =>
        a.employeeId == request.employeeId &&
        a.assignmentType == AssignmentType.POOLED &&
        a.status == AssignmentStatus.ACTIVE)).isSome then
      { isValid := false,
        error := some "Employee already has a pooled license for this software.",
        suggestedAssignmentType := some suggestedType }
    else
      { isValid := true, suggestedAssignmentType := some suggestedType }
  else
    let itemRejection : Option AssignmentValidationResult :=
      match request.itemId with
      | none => none
      | some itemId =>
        if (resource.items.find? (fun i => i.id == itemId)).isNone then
          some
            { isValid := false,
              error := some "The specified software license is not available.",
              suggestedAssignmentType := some suggestedType }
        else if (resource.assignments.find? (fun a =>
            a.itemId == some itemId && a.status == AssignmentStatus.ACTIVE)).isSome then
          some
            { isValid := false,
              error := some "This software license is already assigned.",
              suggestedAssignmentType := some suggestedType }
        else none
    match itemRejection with
    | some r => r
    | none =>
      if (resource.assignments.find? (fun a =>
          a.employeeId == request.employeeId &&
          a.status == AssignmentStatus.ACTIVE)).isSome then
        { isValid := false,
          error := some "Employee already has this software assigned.",
          suggestedAssignmentType := some suggestedType }
      else
        { isValid := true, suggestedAssignmentType := some suggestedType }

/-- Validates cloud assignment (function `validateCloudAssignment`,
service lines 413-445). -/
def validateCloudAssignment (resource : FetchedResource)
    (request : CreateAssignmentRequest) (suggestedType : AssignmentType) :
    AssignmentValidationResult :=
  if (resource.assignments.find? (fun a =>
      a.employeeId == request.employeeId &&
      a.status == AssignmentStatus.ACTIVE)).isSome then
    { isValid := false,
      error := some "Employee already has access to this cloud resource.",
      suggestedAssignmentType := some suggestedType }
  else
    match request.itemId with
    | some itemId =>
      if (resource.items.find? (fun i => i.id == itemId)).isNone then
        { isValid := false,
          error := some "The specified cloud resource item is not available.",
          suggestedAssignmentType := some suggestedType }
      else
        { isValid := true, suggestedAssignmentType := some suggestedType }
    | none =>
      { isValid := true, suggestedAssignmentType := some suggestedType }

/-- Core of `validateAssignmentRequest` once the resource has been
fetched, the resource is ACTIVE and the employee exists (service lines
118-157): classifier, allocation-mode pass, then legacy type-keyed pass. -/
def validateResourceRequest (resource : FetchedResource)
    (request : CreateAssignmentRequest) : AssignmentValidationResult :=
  let resourceTypeName := resource.typeName
  let suggestedAssignmentType :=
    determineAssignmentType resourceTypeName request.assignmentType
  let allocationType := resource.allocationType.getD AllocationType.EXCLUSIVE
  let allocationValidation := validateAllocationTypeConstraints resource request
    allocationType suggestedAssignmentType
  if allocationValidation.isValid = false then allocationValidation
  else
    let normalizedType := toUpperCase resourceTypeName
    if normalizedType = "HARDWARE" ∨ normalizedType = "PHYSICAL" then
      validateHardwareAssignment resource request suggestedAssignmentType
    else if normalizedType = "SOFTWARE" then
      validateSoftwareAssignment resource request suggestedAssignmentType
    else if normalizedType = "CLOUD" then
      validateCloudAssignment resource request suggestedAssignmentType
    else
      { isValid := true,
        suggestedAssignmentType := some suggestedAssignmentType,
        allocationType := some allocationType }

/-- Validates an assignment request (function `validateAssignmentRequest`,
service lines 84-158). -/
def validateAssignmentRequest (db : DB) (request : CreateAssignmentRequest) :
    AssignmentValidationResult :=
  match fetchResource db request.resourceId with
  | none =>
    { isValid := false, error := some "Resource not found",
      errorCode := some "RESOURCE_NOT_FOUND" }
  | some resource =>
    if resource.status ≠ ResourceStatus.ACTIVE then
      { isValid := false, error := some "Resource is not active",
        errorCode := some "RESOURCE_INACTIVE" }
    else if ¬ db.employees.contains request.employeeId then
      { isValid := false, error := some "Employee not found",
        errorCode := some "EMPLOYEE_NOT_FOUND" }
    else
      validateResourceRequest resource request

/-- Update of one `ResourceItem` row status by unique id
(`tx.resourceItem.update`). -/
def setItemStatus (db : DB) (iid : Nat) (st : ItemStatus) : DB :=
  { db with
    items := db.items.map fun i =>
      if i.id == iid then { i with status := st } else i }

/-- Update of one `ResourceAssignment` row by unique id
(`tx.resourceAssignment.update`). -/
def replaceAssignment (db : DB) (upd : Assignment) : DB :=
  { db with
    assignments := db.assignments.map fun a =>
      if a.id == upd.id then upd else a }

/-- Creates a new resource assignment (function `createAssignment`,
service lines 451-518).  The new row id and the clock are inputs of the
embedding (the database generates them in the source); Prisma column
defaults give `quantityAssigned = 1` and `assignedAt = now`. -/
def createAssignment (db : DB) (request : CreateAssignmentRequest)
    (assignedById : Nat) (newId : Nat) (now : Nat) : AssignmentResult × DB :=
  let validation := validateAssignmentRequest db request
  if validation.isValid = false then
    ({ success := false, error := validation.error,
       errorCode := validation.errorCode }, db)
  else
    let assignmentType :=
      match validation.suggestedAssignmentType, request.assignmentType with
      | some t, _ => t
      | none, some t => t
      | none, none => AssignmentType.INDIVIDUAL
    let assignment : Assignment :=
      { id := newId, resourceId := request.resourceId,
        employeeId := request.employeeId, itemId := request.itemId,
        assignedBy := assignedById, assignmentType := assignmentType,
        status := AssignmentStatus.ACTIVE, quantityAssigned := 1,
        assignedAt := now, returnedAt := none, returnReason := none,
        notes := request.notes }
    let db1 := { db with assignments := db.assignments ++ [assignment] }
    let db2 :=
      match request.itemId with
      | some iid => setItemStatus db1 iid ItemStatus.ASSIGNED
      | none => db1
    ({ success := true, assignment := some assignment }, db2)

/-- Printable name of an assignment status, used in error messages. -/
def statusName : AssignmentStatus → String
  | AssignmentStatus.ACTIVE => "ACTIVE"
  | AssignmentStatus.RETURNED => "RETURNED"
  | AssignmentStatus.LOST => "LOST"
  | AssignmentStatus.DAMAGED => "DAMAGED"

/-- Transition table `validTransitions` of `updateAssignmentStatus`
(service lines 549-554). -/
def validTransitions : AssignmentStatus → List AssignmentStatus
  | AssignmentStatus.ACTIVE =>
    [AssignmentStatus.RETURNED, AssignmentStatus.LOST, AssignmentStatus.DAMAGED]
  | AssignmentStatus.RETURNED => []
  | AssignmentStatus.LOST => []
  | AssignmentStatus.DAMAGED => [AssignmentStatus.RETURNED]

/-- Item status mirroring an assignment status (switch of service lines
595-607; the variable is initialised to AVAILABLE and the switch has no
ACTIVE case, so ACTIVE maps to the initial value). -/
def itemStatusForAssignmentStatus : AssignmentStatus → ItemStatus
  | AssignmentStatus.RETURNED => ItemStatus.AVAILABLE
  | AssignmentStatus.LOST => ItemStatus.LOST
  | AssignmentStatus.DAMAGED => ItemStatus.DAMAGED
  | AssignmentStatus.ACTIVE => ItemStatus.AVAILABLE

/-- Updates an assignment status (function `updateAssignmentStatus`,
service lines 525-664).  The booleans `auditSinkOk` and `timelineSinkOk`
say whether the `tx.auditLog.create` and `tx.activityTimeline.create`
calls of the interactive transaction (lines 616-647) succeed; when one of
them throws, Prisma rolls the whole transaction back, so the embedding
leaves the state unchanged, and the surrounding catch returns the
structured UPDATE_FAILED failure. -/
def updateAssignmentStatus (db : DB) (assignmentId : Nat)
    (update : UpdateAssignmentRequest) (now : Nat)
    (auditSinkOk timelineSinkOk : Bool) : AssignmentResult × DB :=
  match db.assignments.find? (fun a => a.id == assignmentId) with
  | none =>
    ({ success := false, error := some "Assignment not found",
       errorCode := some "ASSIGNMENT_NOT_FOUND" }, db)
  | some existing =>
    let currentStatus := existing.status
    let newStatus := update.status
    if (validTransitions currentStatus).contains newStatus = false then
      ({ success := false,
         error := some ("Cannot transition from " ++ statusName currentStatus ++
           " to " ++ statusName newStatus),
         errorCode := some "INVALID_STATUS_TRANSITION" }, db)
    else if auditSinkOk && timelineSinkOk then
      let updatedAssignment : Assignment :=
        { existing with
          status := newStatus,
          returnedAt :=
            if [AssignmentStatus.RETURNED, AssignmentStatus.LOST,
                AssignmentStatus.DAMAGED].contains newStatus then
              some (update.returnedAt.getD now)
            else none,
          notes :=
            match update.notes with
            | some n => some (String.trim ((existing.notes.getD "") ++ "\n\n" ++ n))
            | none => existing.notes }
      let db1 := replaceAssignment db updatedAssignment
      let db2 :=
        match existing.itemId with
        | some iid => setItemStatus db1 iid (itemStatusForAssignmentStatus newStatus)
        | none => db1
      ({ success := true, assignment := some updatedAssignment }, db2)
    else
      ({ success := false, error := some "Failed to update assignment",
         errorCode := some "UPDATE_FAILED" }, db)

/-- Return shape of `getAvailableLicenseCount`. -/
structure LicenseCountView where
  available : Int
  total : Int
  used : Nat
  unlimited : Bool
deriving DecidableEq, Repr

/-- Return shape of `getSharedResourceCapacity`. -/
structure SharedCapacityView where
  currentAssignments : Nat
  maxCapacity : Int
  remainingCapacity : Int
  isUnlimited : Bool
deriving DecidableEq, Repr

/-- JS constant `Number.MAX_SAFE_INTEGER`. -/
def maxSafeInteger : Int := 2 ^ 53 - 1

/-- Count of active assignments of a resource as fetched by the capacity
queries (assignments included with a status ACTIVE filter). -/
def activeAssignmentCountOf (db : DB) (resourceId : Nat) : Nat :=
  (db.assignments.filter (fun a =>
    a.resourceId == resourceId && a.status == AssignmentStatus.ACTIVE)).length

/-- Gets available license count (function `getAvailableLicenseCount`,
service lines 819-846).  The source throws `new Error` when the resource
does not exist; the `Except.error` constructor stands for that thrown
exception, in contrast to the structured results of the validators. -/
def getAvailableLicenseCount (db : DB) (resourceId : Nat) :
    Except String LicenseCountView :=
  match db.resources.find? (fun r => r.id == resourceId) with
  | none => Except.error "Resource not found"
  | some resource =>
    let total := resource.quantity.getD 1
    let used := activeAssignmentCountOf db resourceId
    if total = -1 then
      Except.ok { available := maxSafeInteger, total := -1, used := used,
                  unlimited := true }
    else
      Except.ok { available := max 0 (total - used), total := total,
                  used := used, unlimited := false }

/-- Gets the remaining capacity of a shared resource (function
`getSharedResourceCapacity`, service lines 852-882); throws when the
resource does not exist. -/
def getSharedResourceCapacity (db : DB) (resourceId : Nat) :
    Except String SharedCapacityView :=
  match db.resources.find? (fun r => r.id == resourceId) with
  | none => Except.error "Resource not found"
  | some resource =>
    let currentAssignments := activeAssignmentCountOf db resourceId
    let maxCapacity := resource.quantity.getD 1
    let isUnlimited := maxCapacity = -1
    let remainingCapacity :=
      if isUnlimited then maxSafeInteger
      else max 0 (maxCapacity - currentAssignments)
    Except.ok { currentAssignments := currentAssignments,
                maxCapacity := maxCapacity,
                remainingCapacity := remainingCapacity,
                isUnlimited := isUnlimited }

/-- Body shape of the PUT request of
`src/app/api/resources/assignments/[id]/route.ts`. -/
structure ReturnRouteRequest where
  action : String
  quantityReturned : Option Int
  returnReason : Option String
  notes : Option String
deriving DecidableEq, Repr

/-- HTTP response of the PUT route, reduced to the status code, the
success flag and the error message the claims are about. -/
structure RouteResponse where
  httpStatus : Nat
  success : Bool := false
  error : Option String := none
deriving DecidableEq, Repr

/-- Quantity-tracked return operation: the PUT handler of
`src/app/api/resources/assignments/[id]/route.ts` (lines 71-214), from
the point where the caller is authenticated and authorised (identity is
an external collaborator).  The fresh row id of the split record and the
clock are inputs of the embedding.  JS falsiness of `quantityReturned`
means a missing quantity and a quantity of zero take the same branch as
a non-positive one. -/
def putAssignmentReturn (db : DB) (assignmentId : Nat)
    (body : ReturnRouteRequest) (newId : Nat) (now : Nat) :
    RouteResponse × DB :=
  match db.assignments.find? (fun a => a.id == assignmentId) with
  | none => ({ httpStatus := 404, error := some "Assignment not found" }, db)
  | some assignment =>
    if assignment.status ≠ AssignmentStatus.ACTIVE then
      ({ httpStatus := 400,
         error := some ("Cannot modify assignment with status: " ++
           statusName assignment.status) }, db)
    else if body.action = "return" then
      match body.quantityReturned with
      | none =>
        ({ httpStatus := 400, error := some "Invalid quantity to return" }, db)
      | some quantityReturned =>
        if quantityReturned ≤ 0 then
          ({ httpStatus := 400, error := some "Invalid quantity to return" }, db)
        else if quantityReturned > assignment.quantityAssigned then
          ({ httpStatus := 400,
             error := some ("Cannot return more than assigned. Assigned: " ++
               toString assignment.quantityAssigned ++ ", Requested: " ++
               toString quantityReturned) }, db)
        else
          match body.returnReason with
          | none =>
            ({ httpStatus := 400, error := some "Return reason is required" }, db)
          | some returnReason =>
            if quantityReturned = assignment.quantityAssigned then
              let updatedAssignment : Assignment :=
                { assignment with
                  status := AssignmentStatus.RETURNED,
                  returnedAt := some now,
                  returnReason := some returnReason,
                  notes :=
                    match body.notes with
                    | some n => some n
                    | none => assignment.notes }
              ({ httpStatus := 200, success := true },
                replaceAssignment db updatedAssignment)
            else
              let remainingQuantity := assignment.quantityAssigned - quantityReturned
              let updatedAssignment : Assignment :=
                { assignment with
                  quantityAssigned := remainingQuantity,
                  notes :=
                    match body.notes with
                    | some n => some n
                    | none => assignment.notes }
              let db1 := replaceAssignment db updatedAssignment
              let returnedRecord : Assignment :=
                { id := newId, resourceId := assignment.resourceId,
                  employeeId := assignment.employeeId, itemId := none,
                  assignedBy := assignment.assignedBy,
                  assignmentType := AssignmentType.INDIVIDUAL,
                  status := AssignmentStatus.RETURNED,
                  quantityAssigned := quantityReturned,
                  assignedAt := assignment.assignedAt,
                  returnedAt := some now,
                  returnReason := some returnReason,
                  notes := some ("Partial return from assignment " ++
                    toString assignmentId ++ ". " ++ (body.notes.getD "")) }
              let db2 := { db1 with assignments := db1.assignments ++ [returnedRecord] }
              ({ httpStatus := 200, success := true }, db2)
    else
      ({ httpStatus := 400,
         error := some ("Unsupported action: " ++ body.action) }, db)

/-- Transition relation as the spec states it: ACTIVE to RETURNED, LOST
or DAMAGED, and DAMAGED to RETURNED.  Stated from the spec words, to be
compared with the source table `validTransitions`. -/
def allowedTransition (s t : AssignmentStatus) : Prop :=
  (s = AssignmentStatus.ACTIVE ∧
    (t = AssignmentStatus.RETURNED ∨ t = AssignmentStatus.LOST ∨
     t = AssignmentStatus.DAMAGED)) ∨
  (s = AssignmentStatus.DAMAGED ∧ t = AssignmentStatus.RETURNED)

instance (s t : AssignmentStatus) : Decidable (allowedTransition s t) := by
  unfold allowedTransition
  infer_instance

/-! Concrete database states used by scenario theorems and witnesses. -/

/-- Empty database. -/
def emptyDB : DB := { resources := [], items := [], assignments := [], employees := [] }

/-- EXCLUSIVE SOFTWARE resource 1 with an item 11 actively assigned to
employee 32 and an item 12 still AVAILABLE. -/
def c1db : DB :=
  { resources := [
      { id := 1, typeName := "SOFTWARE",
        allocationType := some AllocationType.EXCLUSIVE,
        quantity := some 5, status := ResourceStatus.ACTIVE }],
    items := [
      { id := 11, resourceId := 1, status := ItemStatus.ASSIGNED },
      { id := 12, resourceId := 1, status := ItemStatus.AVAILABLE }],
    assignments := [
      { id := 21, resourceId := 1, employeeId := 31,
        itemId := some 11, assignedBy := 30,
        assignmentType := AssignmentType.INDIVIDUAL,
        status := AssignmentStatus.ACTIVE, quantityAssigned := 1,
        assignedAt := 0, returnedAt := none, returnReason := none, notes := none }],
    employees := [30, 31, 32] }

/-- Request of employee 31 for the AVAILABLE item 12 of resource 1. -/
def c1req : CreateAssignmentRequest :=
  { resourceId := 1, employeeId := 31, itemId := some 12,
    assignmentType := none, notes := none }

/-- EXCLUSIVE HARDWARE resource 1 with one AVAILABLE item 11. -/
def c1hwdb : DB :=
  { resources := [
      { id := 1, typeName := "HARDWARE",
        allocationType := some AllocationType.EXCLUSIVE,
        quantity := some 1, status := ResourceStatus.ACTIVE }],
    items := [{ id := 11, resourceId := 1, status := ItemStatus.AVAILABLE }],
    assignments := [], employees := [30, 31] }

/-- Request of employee 31 for item 11 of resource 1. -/
def c1hwreq : CreateAssignmentRequest :=
  { resourceId := 1, employeeId := 31, itemId := some 11,
    assignmentType := none, notes := none }

/-- Scenario B start: SHARED CLOUD resource 1 with quantity 2, no
assignments, employees 31, 32, 33 and administrator 30. -/
def sbDB0 : DB :=
  { resources := [
      { id := 1, typeName := "CLOUD",
        allocationType := some AllocationType.SHARED,
        quantity := some 2, status := ResourceStatus.ACTIVE }],
    items := [], assignments := [], employees := [30, 31, 32, 33] }

/-- Scenario B request of employee `e` for resource 1, no item. -/
def sbReq (e : Nat) : CreateAssignmentRequest :=
  { resourceId := 1, employeeId := e, itemId := none,
    assignmentType := none, notes := none }

/-- Scenario B state after assigning employee 31. -/
def sbDB1 : DB := (createAssignment sbDB0 (sbReq 31) 30 101 10).snd

/-- Scenario B state after assigning employees 31 and 32. -/
def sbDB2 : DB := (createAssignment sbDB1 (sbReq 32) 30 102 11).snd

/-- Round-trip start: EXCLUSIVE HARDWARE resource 1 with one AVAILABLE
item 11. -/
def rtDB0 : DB :=
  { resources := [
      { id := 1, typeName := "HARDWARE",
        allocationType := some AllocationType.EXCLUSIVE,
        quantity := some 1, status := ResourceStatus.ACTIVE }],
    items := [{ id := 11, resourceId := 1, status := ItemStatus.AVAILABLE }],
    assignments := [], employees := [30, 31] }

/-- Round-trip request: employee 31 asks for item 11 of resource 1. -/
def rtReq : CreateAssignmentRequest :=
  { resourceId := 1, employeeId := 31, itemId := some 11,
    assignmentType := none, notes := none }

/-- Round-trip state after the first assignment. -/
def rtDB1 : DB := (createAssignment rtDB0 rtReq 30 101 10).snd

/-- Return request used by the round trip. -/
def rtUpd : UpdateAssignmentRequest :=
  { status := AssignmentStatus.RETURNED, notes := none, returnedAt := none }

/-- Round-trip state after returning assignment 101. -/
def rtDB2 : DB := (updateAssignmentStatus rtDB1 101 rtUpd 20 true true).snd

/-- The assignment row created by the round-trip first assignment. -/
def rtAssignment : Assignment :=
  { id := 101, resourceId := 1, employeeId := 31, itemId := some 11,
    assignedBy := 30, assignmentType := AssignmentType.INDIVIDUAL,
    status := AssignmentStatus.ACTIVE, quantityAssigned := 1,
    assignedAt := 10, returnedAt := none, returnReason := none, notes := none }

/-- Quantity-tracked state: assignment 21 of 5 units of resource 1 to
employee 31, ACTIVE. -/
def c5db : DB :=
  { resources := [
      { id := 1, typeName := "subscription",
        allocationType := some AllocationType.SHARED,
        quantity := some 10, status := ResourceStatus.ACTIVE }],
    items := [],
    assignments := [
      { id := 21, resourceId := 1, employeeId := 31,
        itemId := none, assignedBy := 30,
        assignmentType := AssignmentType.INDIVIDUAL,
        status := AssignmentStatus.ACTIVE, quantityAssigned := 5,
        assignedAt := 0, returnedAt := none, returnReason := none, notes := none }],
    employees := [30, 31] }

/-- The quantity-tracked assignment row of `c5db`. -/
def c5assignment : Assignment :=
  { id := 21, resourceId := 1, employeeId := 31, itemId := none,
    assignedBy := 30, assignmentType := AssignmentType.INDIVIDUAL,
    status := AssignmentStatus.ACTIVE, quantityAssigned := 5,
    assignedAt := 0, returnedAt := none, returnReason := none, notes := none }

/-- Return body: return 2 units for a reason. -/
def c5body : ReturnRouteRequest :=
  { action := "return", quantityReturned := some 2,
    returnReason := some "No longer needed", notes := none }

/-- EXCLUSIVE SOFTWARE resource 1 with quantity `q`, one assigned item,
one available item, and one active INDIVIDUAL assignment of employee 32. -/
def c6db (q : Int) : DB :=
  { resources := [
      { id := 1, typeName := "SOFTWARE",
        allocationType := some AllocationType.EXCLUSIVE,
        quantity := some q, status := ResourceStatus.ACTIVE }],
    items := [
      { id := 11, resourceId := 1, status := ItemStatus.ASSIGNED },
      { id := 12, resourceId := 1, status := ItemStatus.AVAILABLE }],
    assignments := [
      { id := 21, resourceId := 1, employeeId := 32,
        itemId := some 11, assignedBy := 30,
        assignmentType := AssignmentType.INDIVIDUAL,
        status := AssignmentStatus.ACTIVE, quantityAssigned := 1,
        assignedAt := 0, returnedAt := none, returnReason := none, notes := none }],
    employees := [30, 31, 32] }

/-- Request of employee 31 for item 12 of resource 1 with POOLED
category requested. -/
def c6req : CreateAssignmentRequest :=
  { resourceId := 1, employeeId := 31, itemId := some 12,
    assignmentType := some AssignmentType.POOLED, notes := none }

/-- SHARED CLOUD resource 1 with one ACTIVE assignment 21. -/
def c7db : DB :=
  { resources := [
      { id := 1, typeName := "CLOUD",
        allocationType := some AllocationType.SHARED,
        quantity := some (-1), status := ResourceStatus.ACTIVE }],
    items := [],
    assignments := [
      { id := 21, resourceId := 1, employeeId := 31,
        itemId := none, assignedBy := 30,
        assignmentType := AssignmentType.SHARED,
        status := AssignmentStatus.ACTIVE, quantityAssigned := 1,
        assignedAt := 0, returnedAt := none, returnReason := none, notes := none }],
    employees := [30, 31] }

/-- The ACTIVE assignment row of `c7db`. -/
def c7assignment : Assignment :=
  { id := 21, resourceId := 1, employeeId := 31, itemId := none,
    assignedBy := 30, assignmentType := AssignmentType.SHARED,
    status := AssignmentStatus.ACTIVE, quantityAssigned := 1,
    assignedAt := 0, returnedAt := none, returnReason := none, notes := none }

/-- Update request asking for a RETURNED transition. -/
def c7upd : UpdateAssignmentRequest :=
  { status := AssignmentStatus.RETURNED, notes := none, returnedAt := none }

/-- Fetched view of an EXCLUSIVE HARDWARE resource with no items. -/
def c8fetched : FetchedResource :=
  { id := 1, typeName := "HARDWARE",
    allocationType := some AllocationType.EXCLUSIVE,
    quantity := some 1, status := ResourceStatus.ACTIVE,
    items := [], assignments := [] }

/-- Request of employee 31 with no item reference for resource 1. -/
def c8req : CreateAssignmentRequest :=
  { resourceId := 1, employeeId := 31, itemId := none,
    assignmentType := none, notes := none }

/-- SHARED resource 1 with quantity 3 and one active assignment. -/
def c9db : DB :=
  { resources := [
      { id := 1, typeName := "CLOUD",
        allocationType := some AllocationType.SHARED,
        quantity := some 3, status := ResourceStatus.ACTIVE }],
    items := [],
    assignments := [
      { id := 21, resourceId := 1, employeeId := 31,
        itemId := none, assignedBy := 30,
        assignmentType := AssignmentType.SHARED,
        status := AssignmentStatus.ACTIVE, quantityAssigned := 1,
        assignedAt := 0, returnedAt := none, returnReason := none, notes := none }],
    employees := [30, 31, 32] }

/-- The assignment row after the round-trip return of assignment 101. -/
def rtReturnedAssignment : Assignment :=
  { id := 101, resourceId := 1, employeeId := 31, itemId := some 11,
    assignedBy := 30, assignmentType := AssignmentType.INDIVIDUAL,
    status := AssignmentStatus.RETURNED, quantityAssigned := 1,
    assignedAt := 10, returnedAt := some 20, returnReason := none, notes := none }

/-- The assignment row created by scenario B for employee 31. -/
def sbAssignment101 : Assignment :=
  { id := 101, resourceId := 1, employeeId := 31, itemId := none,
    assignedBy := 30, assignmentType := AssignmentType.SHARED,
    status := AssignmentStatus.ACTIVE, quantityAssigned := 1,
    assignedAt := 10, returnedAt := none, returnReason := none, notes := none }

/-- Fetched view of resource 1 in scenario B state `sbDB1`. -/
def sbFetched1 : FetchedResource :=
  { id := 1, typeName := "CLOUD", allocationType := some AllocationType.SHARED,
    quantity := some 2, status := ResourceStatus.ACTIVE,
    items := [], assignments := [sbAssignment101] }

/-- Fetched view of resource 1 in `c1db` (item 11 is ASSIGNED, so only
item 12 passes the AVAILABLE filter). -/
def c1fetched : FetchedResource :=
  { id := 1, typeName := "SOFTWARE",
    allocationType := some AllocationType.EXCLUSIVE,
    quantity := some 5, status := ResourceStatus.ACTIVE,
    items := [{ id := 12, resourceId := 1, status := ItemStatus.AVAILABLE }],
    assignments := [
      { id := 21, resourceId := 1, employeeId := 31,
        itemId := some 11, assignedBy := 30,
        assignmentType := AssignmentType.INDIVIDUAL,
        status := AssignmentStatus.ACTIVE, quantityAssigned := 1,
        assignedAt := 0, returnedAt := none, returnReason := none,
        notes := none }] }

/-- Fetched view of resource 1 in `c1hwdb`. -/
def c1hwFetched : FetchedResource :=
  { id := 1, typeName := "HARDWARE",
    allocationType := some AllocationType.EXCLUSIVE,
    quantity := some 1, status := ResourceStatus.ACTIVE,
    items := [{ id := 11, resourceId := 1, status := ItemStatus.AVAILABLE }],
    assignments := [] }

/-- The resource row of `c9db`. -/
def c9resource : Resource :=
  { id := 1, typeName := "CLOUD", allocationType := some AllocationType.SHARED,
    quantity := some 3, status := ResourceStatus.ACTIVE }

/-- C10: the Allocation Classifier maps hardware-like type names to
INDIVIDUAL unconditionally, software-like names to POOLED exactly when
POOLED was requested and to INDIVIDUAL otherwise, cloud-like names to
SHARED unconditionally, and unrecognized names to the requested category
with default INDIVIDUAL.  Determinism and purity hold because
`determineAssignmentType` is a total function of the two inputs. -/
theorem determineAssignmentType_classifies (s : String) (req : Option AssignmentType) :
    ((toUpperCase s = "HARDWARE" ∨ toUpperCase s = "PHYSICAL") →
      determineAssignmentType s req = AssignmentType.INDIVIDUAL) ∧
    (toUpperCase s = "SOFTWARE" →
      (determineAssignmentType s req = AssignmentType.POOLED ↔
        req = some AssignmentType.POOLED) ∧
      (req ≠ some AssignmentType.POOLED →
        determineAssignmentType s req = AssignmentType.INDIVIDUAL)) ∧
    (toUpperCase s = "CLOUD" → determineAssignmentType s req = AssignmentType.SHARED) ∧
    (toUpperCase s ≠ "HARDWARE" → toUpperCase s ≠ "PHYSICAL" →
      toUpperCase s ≠ "SOFTWARE" → toUpperCase s ≠ "CLOUD" →
      determineAssignmentType s req = req.getD AssignmentType.INDIVIDUAL) := by
  refine ⟨?_, ?_, ?_, ?_⟩
  · intro h
    rcases h with h | h <;> simp [determineAssignmentType, h]
  · intro h
    have hhw : ¬ (toUpperCase s = "HARDWARE" ∨ toUpperCase s = "PHYSICAL") := by
      simp [h]
    constructor
    · simp only [determineAssignmentType, hhw, if_false, h, if_true]
      by_cases hp : req = some AssignmentType.POOLED <;> simp [hp]
    · intro hp
      simp only [determineAssignmentType, hhw, if_false, h, if_true]
      simp [hp]
  · intro h
    have hhw : ¬ (toUpperCase s = "HARDWARE" ∨ toUpperCase s = "PHYSICAL") := by
      simp [h]
    have hsw : toUpperCase s ≠ "SOFTWARE" := by simp [h]
    simp [determineAssignmentType, hhw, hsw, h]
  · intro h1 h2 h3 h4
    simp [determineAssignmentType, h1, h2, h3, h4]

/-- Witness for C10 at concrete inputs: the string Hardware is
hardware-like case-insensitively and classifies as INDIVIDUAL even when
POOLED was requested. -/
theorem determineAssignmentType_classifies_witness :
    toUpperCase "Hardware" = "HARDWARE" ∧
    determineAssignmentType "Hardware" (some AssignmentType.POOLED) =
      AssignmentType.INDIVIDUAL :=
  ⟨by decide,
    (determineAssignmentType_classifies "Hardware" (some AssignmentType.POOLED)).1
      (Or.inl (by decide))⟩

/-- Reduction of the full validation pipeline to its core once the
resource is fetched, the resource is ACTIVE and the employee exists. -/
theorem validateAssignmentRequest_reduces (db : DB) (req : CreateAssignmentRequest)
    (r : FetchedResource) (hfetch : fetchResource db req.resourceId = some r)
    (hactive : r.status = ResourceStatus.ACTIVE)
    (hemp : db.employees.contains req.employeeId = true) :
    validateAssignmentRequest db req = validateResourceRequest r req := by
  have hemp2 : req.employeeId ∈ db.employees := by simpa using hemp
  simp [validateAssignmentRequest, hfetch, hactive, hemp2]

/-- C3: for every existing assignment the status-transition operation
succeeds only along ACTIVE to RETURNED, LOST or DAMAGED and DAMAGED to
RETURNED; every other source and target pair is rejected with errorCode
INVALID_STATUS_TRANSITION and the state is unchanged; an allowed pair
with working log sinks succeeds; RETURNED (like LOST) is terminal, so
every transition out of RETURNED fails with INVALID_STATUS_TRANSITION. -/
theorem updateAssignmentStatus_state_machine
    (db : DB) (aid : Nat) (upd : UpdateAssignmentRequest) (now : Nat)
    (existing : Assignment)
    (hfind : db.assignments.find? (fun a => a.id == aid) = some existing) :
    (∀ aok tok, (updateAssignmentStatus db aid upd now aok tok).fst.success = true →
      allowedTransition existing.status upd.status) ∧
    (¬ allowedTransition existing.status upd.status →
      ∀ aok tok,
        (updateAssignmentStatus db aid upd now aok tok).fst.success = false ∧
        (updateAssignmentStatus db aid upd now aok tok).fst.errorCode =
          some "INVALID_STATUS_TRANSITION" ∧
        (updateAssignmentStatus db aid upd now aok tok).snd = db) ∧
    (allowedTransition existing.status upd.status →
      (updateAssignmentStatus db aid upd now true true).fst.success = true) ∧
    (existing.status = AssignmentStatus.RETURNED →
      ∀ aok tok,
        (updateAssignmentStatus db aid upd now aok tok).fst.errorCode =
          some "INVALID_STATUS_TRANSITION") := by
  obtain ⟨eid, erid, eeid, eitem, eby, etype, estatus, eqty, eat, eret, ereas, enotes⟩ :=
    existing
  obtain ⟨ustatus, unotes, uret⟩ := upd
  cases estatus <;> cases ustatus <;>
    simp_all [updateAssignmentStatus, validTransitions, allowedTransition,
      List.contains]

/-- Witness for C3: on the concrete state `c7db`, the ACTIVE assignment
21 transitions to RETURNED successfully. -/
theorem updateAssignmentStatus_state_machine_witness :
    (updateAssignmentStatus c7db 21 c7upd 20 true true).fst.success = true :=
  (updateAssignmentStatus_state_machine c7db 21 c7upd 20 c7assignment
      (by decide)).2.2.1 (Or.inl ⟨rfl, Or.inl rfl⟩)

/-- C7 counterexample: on `c7db` the RETURNED transition of assignment 21
succeeds when both log sinks work, but when the audit-log write throws the
operation reports failure and the whole transaction, including the
primary state change, is rolled back — contradicting the claim that a
sink failure never rolls back or fails the primary state change. -/
theorem updateAssignmentStatus_sink_failure_counterexample :
    (updateAssignmentStatus c7db 21 c7upd 20 true true).fst.success = true ∧
    (updateAssignmentStatus c7db 21 c7upd 20 false true).fst.success = false ∧
    (updateAssignmentStatus c7db 21 c7upd 20 false true).fst.errorCode =
      some "UPDATE_FAILED" ∧
    (updateAssignmentStatus c7db 21 c7upd 20 false true).snd = c7db := by
  refine ⟨by decide, by decide, by decide, by decide⟩

/-- C7 as amended: the audit and timeline writes happen inside the same
transaction as the state change, so when either sink write throws on an
otherwise valid transition, the transaction is rolled back (state
unchanged) and the operation returns the structured UPDATE_FAILED
failure instead of reporting success. -/
theorem updateAssignmentStatus_sink_failure
    (db : DB) (aid : Nat) (upd : UpdateAssignmentRequest) (now : Nat)
    (existing : Assignment) (aok tok : Bool)
    (hfind : db.assignments.find? (fun a => a.id == aid) = some existing)
    (hvalid : (validTransitions existing.status).contains upd.status = true)
    (hsink : (aok && tok) = false) :
    (updateAssignmentStatus db aid upd now aok tok).fst.success = false ∧
    (updateAssignmentStatus db aid upd now aok tok).fst.errorCode =
      some "UPDATE_FAILED" ∧
    (updateAssignmentStatus db aid upd now aok tok).snd = db := by
  have hmem : upd.status ∈ validTransitions existing.status := by simpa using hvalid
  simp [updateAssignmentStatus, hfind, hmem, hsink]

/-- Witness for the amended C7 at the concrete state `c7db` with a
failing audit sink. -/
theorem updateAssignmentStatus_sink_failure_witness :
    (updateAssignmentStatus c7db 21 c7upd 20 false true).fst.errorCode =
      some "UPDATE_FAILED" :=
  (updateAssignmentStatus_sink_failure c7db 21 c7upd 20 c7assignment false true
    (by decide) (by decide) (by decide)).2.1

/-- C4: a successful status transition of an assignment that references
an item sets the return timestamp on the updated assignment and sets the
status of that item to AVAILABLE on RETURNED, LOST on LOST and DAMAGED
on DAMAGED; consequently the concrete round trip assign, return, assign
again on the same item succeeds. -/
theorem updateAssignmentStatus_mirrors_item
    (db : DB) (aid : Nat) (upd : UpdateAssignmentRequest) (now : Nat)
    (existing : Assignment) (iid : Nat)
    (hfind : db.assignments.find? (fun a => a.id == aid) = some existing)
    (hitem : existing.itemId = some iid)
    (hsucc : (updateAssignmentStatus db aid upd now true true).fst.success = true) :
    (∀ a, (updateAssignmentStatus db aid upd now true true).fst.assignment = some a →
      a.returnedAt = some (upd.returnedAt.getD now)) ∧
    (∀ it ∈ (updateAssignmentStatus db aid upd now true true).snd.items, it.id = iid →
      (upd.status = AssignmentStatus.RETURNED → it.status = ItemStatus.AVAILABLE) ∧
      (upd.status = AssignmentStatus.LOST → it.status = ItemStatus.LOST) ∧
      (upd.status = AssignmentStatus.DAMAGED → it.status = ItemStatus.DAMAGED)) ∧
    ((createAssignment rtDB0 rtReq 30 101 10).fst.success = true ∧
      (updateAssignmentStatus rtDB1 101 rtUpd 20 true true).fst.success = true ∧
      (createAssignment rtDB2 rtReq 30 102 30).fst.success = true) := by
  obtain ⟨ustatus, unotes, uret⟩ := upd
  cases hvalid : (validTransitions existing.status).contains ustatus
  case false =>
    exfalso
    have hnot : ustatus ∉ validTransitions existing.status := by
      simpa using hvalid
    simp [updateAssignmentStatus, hfind, hnot] at hsucc
  case true =>
    have hmem : ustatus ∈ validTransitions existing.status := by simpa using hvalid
    have hret : [AssignmentStatus.RETURNED, AssignmentStatus.LOST,
        AssignmentStatus.DAMAGED].contains ustatus = true := by
      revert hvalid
      cases existing.status <;> cases ustatus <;> decide
    refine ⟨?_, ?_, by decide, by decide, by decide⟩
    · intro a ha
      have htri : ustatus = AssignmentStatus.RETURNED ∨
          ustatus = AssignmentStatus.LOST ∨
          ustatus = AssignmentStatus.DAMAGED := by
        revert hret
        cases ustatus <;> decide
      rcases htri with h | h | h <;>
        (subst h
         simp [updateAssignmentStatus, hfind, hmem] at ha
         subst ha
         simp)
    · intro it hmemit hid
      simp [updateAssignmentStatus, hfind, hmem, hitem, setItemStatus,
        replaceAssignment] at hmemit
      obtain ⟨b, hb, hbit⟩ := hmemit
      by_cases hbid : b.id = iid
      · rw [if_pos (by simpa using hbid)] at hbit
        subst hbit
        cases ustatus <;> simp [itemStatusForAssignmentStatus]
      · rw [if_neg (by simpa using hbid)] at hbit
        subst hbit
        exact absurd hid hbid

/-- Witness for C4: returning the concrete round-trip assignment 101
yields the RETURNED row with its return timestamp set. -/
theorem updateAssignmentStatus_mirrors_item_witness :
    rtReturnedAssignment.returnedAt = some 20 :=
  (updateAssignmentStatus_mirrors_item rtDB1 101 rtUpd 20 rtAssignment 11
    (by decide) (by decide) (by decide)).1 rtReturnedAssignment (by decide)

/-- C2: on a SHARED resource the allocation-mode pass ignores the item
reference; the full validation rejects with ALREADY_ASSIGNED when the
employee already holds an active assignment on the resource, and with
CAPACITY_REACHED carrying currentAssignments and maxCapacity when the
quantity is capped (not -1) and the active-assignment count equals the
quantity; in particular scenario B: quantity 2, two successful distinct
assignments, and the third distinct employee fails CAPACITY_REACHED with
currentAssignments 2 and maxCapacity 2. -/
theorem shared_validation_rules :
    (∀ (r : FetchedResource) (req : CreateAssignmentRequest)
        (sug : AssignmentType) (i j : Option Nat),
      validateAllocationTypeConstraints r { req with itemId := i }
          AllocationType.SHARED sug =
        validateAllocationTypeConstraints r { req with itemId := j }
          AllocationType.SHARED sug) ∧
    (∀ (db : DB) (req : CreateAssignmentRequest) (r : FetchedResource),
      fetchResource db req.resourceId = some r →
      r.status = ResourceStatus.ACTIVE →
      db.employees.contains req.employeeId = true →
      r.allocationType = some AllocationType.SHARED →
      (∃ a ∈ r.assignments, a.status = AssignmentStatus.ACTIVE ∧
        a.employeeId = req.employeeId) →
      (validateAssignmentRequest db req).isValid = false ∧
      (validateAssignmentRequest db req).errorCode = some "ALREADY_ASSIGNED") ∧
    (∀ (db : DB) (req : CreateAssignmentRequest) (r : FetchedResource) (q : Int),
      fetchResource db req.resourceId = some r →
      r.status = ResourceStatus.ACTIVE →
      db.employees.contains req.employeeId = true →
      r.allocationType = some AllocationType.SHARED →
      (¬ ∃ a ∈ r.assignments, a.status = AssignmentStatus.ACTIVE ∧
        a.employeeId = req.employeeId) →
      r.quantity = some q → q ≠ -1 →
      (((r.assignments.filter
          (fun a => a.status == AssignmentStatus.ACTIVE)).length : Int) = q) →
      (validateAssignmentRequest db req).isValid = false ∧
      (validateAssignmentRequest db req).errorCode = some "CAPACITY_REACHED" ∧
      (validateAssignmentRequest db req).currentAssignments =
        some (r.assignments.filter
          (fun a => a.status == AssignmentStatus.ACTIVE)).length ∧
      (validateAssignmentRequest db req).maxCapacity = some q) ∧
    ((createAssignment sbDB0 (sbReq 31) 30 101 10).fst.success = true ∧
      (createAssignment sbDB1 (sbReq 32) 30 102 11).fst.success = true ∧
      (validateAssignmentRequest sbDB2 (sbReq 33)).isValid = false ∧
      (validateAssignmentRequest sbDB2 (sbReq 33)).errorCode =
        some "CAPACITY_REACHED" ∧
      (validateAssignmentRequest sbDB2 (sbReq 33)).currentAssignments = some 2 ∧
      (validateAssignmentRequest sbDB2 (sbReq 33)).maxCapacity = some 2) := by
  refine ⟨?_, ?_, ?_, by decide, by decide, by decide, by decide, by decide, by decide⟩
  · intro r req sug i j
    rfl
  · intro db req r hfetch hactive hemp halloc hdup
    rw [validateAssignmentRequest_reduces db req r hfetch hactive hemp]
    simp [validateResourceRequest, halloc, validateAllocationTypeConstraints,
      List.find?_isSome, List.mem_filter, hdup]
  · intro db req r q hfetch hactive hemp halloc hdup hq hqn hlen
    rw [validateAssignmentRequest_reduces db req r hfetch hactive hemp]
    have hle : q ≤ ((r.assignments.filter
        (fun a => a.status == AssignmentStatus.ACTIVE)).length : Int) :=
      le_of_eq hlen.symm
    simp [validateResourceRequest, halloc, validateAllocationTypeConstraints,
      List.find?_isSome, List.find?_eq_none, List.mem_filter, hdup, hq, hqn, hle]

/-- Witness for C2: in scenario B state `sbDB1`, employee 31 requesting
the SHARED resource again is rejected with ALREADY_ASSIGNED. -/
theorem shared_validation_rules_witness :
    (validateAssignmentRequest sbDB1 (sbReq 31)).errorCode =
      some "ALREADY_ASSIGNED" :=
  (shared_validation_rules.2.1 sbDB1 (sbReq 31) sbFetched1 (by decide) (by decide)
    (by decide) (by decide) ⟨sbAssignment101, by decide, by decide, by decide⟩).2

/-- C9: for an existing resource with a configured quantity, the
Capacity Calculator reports total equal to the quantity, used equal to
the count of active assignments and available equal to total minus used
floored at zero; for quantity -1 it reports unlimited with the unbounded
sentinel Number.MAX_SAFE_INTEGER; and a SHARED resource with quantity -1
accepts any employee without an active assignment no matter how many
assignments already exist, so it is never exhausted. -/
theorem capacity_calculator_views :
    (∀ (db : DB) (rid : Nat) (r : Resource) (q : Int),
      db.resources.find? (fun x => x.id == rid) = some r →
      r.quantity = some q → q ≠ -1 →
      getAvailableLicenseCount db rid = Except.ok
        { available := max 0 (q - activeAssignmentCountOf db rid), total := q,
          used := activeAssignmentCountOf db rid, unlimited := false } ∧
      getSharedResourceCapacity db rid = Except.ok
        { currentAssignments := activeAssignmentCountOf db rid, maxCapacity := q,
          remainingCapacity := max 0 (q - activeAssignmentCountOf db rid),
          isUnlimited := false }) ∧
    (∀ (db : DB) (rid : Nat) (r : Resource),
      db.resources.find? (fun x => x.id == rid) = some r →
      r.quantity = some (-1) →
      getAvailableLicenseCount db rid = Except.ok
        { available := maxSafeInteger, total := -1,
          used := activeAssignmentCountOf db rid, unlimited := true } ∧
      getSharedResourceCapacity db rid = Except.ok
        { currentAssignments := activeAssignmentCountOf db rid, maxCapacity := -1,
          remainingCapacity := maxSafeInteger, isUnlimited := true }) ∧
    (∀ (fr : FetchedResource) (req : CreateAssignmentRequest) (sug : AssignmentType),
      fr.quantity = some (-1) →
      (¬ ∃ a ∈ fr.assignments, a.status = AssignmentStatus.ACTIVE ∧
        a.employeeId = req.employeeId) →
      (validateAllocationTypeConstraints fr req AllocationType.SHARED sug).isValid =
        true) := by
  refine ⟨?_, ?_, ?_⟩
  · intro db rid r q hfind hq hqn
    constructor <;>
      simp [getAvailableLicenseCount, getSharedResourceCapacity, hfind, hq, hqn,
        activeAssignmentCountOf]
  · intro db rid r hfind hq
    constructor <;>
      simp [getAvailableLicenseCount, getSharedResourceCapacity, hfind, hq,
        activeAssignmentCountOf]
  · intro fr req sug hq hdup
    simp [validateAllocationTypeConstraints, List.find?_isSome, List.mem_filter,
      hdup, hq]

/-- Witness for C9 at the concrete state `c9db`: quantity 3, one active
assignment, so two seats remain available. -/
theorem capacity_calculator_views_witness :
    getAvailableLicenseCount c9db 1 = Except.ok
      { available := max 0 (3 - activeAssignmentCountOf c9db 1), total := 3,
        used := activeAssignmentCountOf c9db 1, unlimited := false } ∧
    activeAssignmentCountOf c9db 1 = 1 :=
  ⟨(capacity_calculator_views.1 c9db 1 c9resource 3 (by decide) rfl
      (by decide)).1, by decide⟩

/-- C5: on an ACTIVE quantity-tracked assignment of quantity N, a return
of quantity q with 0 < q < N reduces the original assignment to N - q
while it stays ACTIVE and appends a RETURNED record with quantity q, the
reason and a return timestamp, and (N - q) + q = N; q = N marks the
original RETURNED; a missing or non-positive q and q > N are rejected
with status 400 and leave the state unchanged. -/
theorem putAssignmentReturn_splits
    (db : DB) (aid newId now : Nat) (body : ReturnRouteRequest)
    (assignment : Assignment) (reason : String)
    (hfind : db.assignments.find? (fun a => a.id == aid) = some assignment)
    (hactive : assignment.status = AssignmentStatus.ACTIVE)
    (haction : body.action = "return")
    (hreason : body.returnReason = some reason)
    (hnew : newId ≠ aid) :
    (∀ q, body.quantityReturned = some q → 0 < q →
      q < assignment.quantityAssigned →
      (putAssignmentReturn db aid body newId now).fst.success = true ∧
      (∀ a ∈ (putAssignmentReturn db aid body newId now).snd.assignments,
        a.id = aid → a.quantityAssigned = assignment.quantityAssigned - q ∧
          a.status = AssignmentStatus.ACTIVE) ∧
      (∃ a ∈ (putAssignmentReturn db aid body newId now).snd.assignments,
        a.id = newId ∧ a.status = AssignmentStatus.RETURNED ∧
        a.quantityAssigned = q ∧ a.returnReason = some reason ∧
        a.returnedAt = some now) ∧
      (assignment.quantityAssigned - q) + q = assignment.quantityAssigned) ∧
    (body.quantityReturned = some assignment.quantityAssigned →
      0 < assignment.quantityAssigned →
      (putAssignmentReturn db aid body newId now).fst.success = true ∧
      (∀ a ∈ (putAssignmentReturn db aid body newId now).snd.assignments,
        a.id = aid → a.status = AssignmentStatus.RETURNED ∧
          a.returnedAt = some now ∧ a.returnReason = some reason ∧
          a.quantityAssigned = assignment.quantityAssigned)) ∧
    (∀ q, body.quantityReturned = some q → q ≤ 0 →
      (putAssignmentReturn db aid body newId now).fst.httpStatus = 400 ∧
      (putAssignmentReturn db aid body newId now).snd = db) ∧
    (body.quantityReturned = none →
      (putAssignmentReturn db aid body newId now).fst.httpStatus = 400 ∧
      (putAssignmentReturn db aid body newId now).snd = db) ∧
    (∀ q, body.quantityReturned = some q → q > assignment.quantityAssigned →
      (putAssignmentReturn db aid body newId now).fst.httpStatus = 400 ∧
      (putAssignmentReturn db aid body newId now).snd = db) := by
  have hid : assignment.id = aid := by
    have h := List.find?_some hfind
    simpa using h
  refine ⟨?_, ?_, ?_, ?_, ?_⟩
  · intro q hq h0 hlt
    have h1 : ¬ q ≤ 0 := by omega
    have h2 : ¬ q > assignment.quantityAssigned := by omega
    have h3 : ¬ q = assignment.quantityAssigned := by omega
    refine ⟨?_, ?_, ?_, by omega⟩
    · simp [putAssignmentReturn, hfind, hactive, haction, hreason, hq, h1, h2, h3]
    · intro a ha haid
      simp [putAssignmentReturn, hfind, hactive, haction, hreason, hq, h1, h2, h3,
        replaceAssignment] at ha
      rcases ha with ⟨b, hb, hba⟩ | hrec
      · by_cases hbid : b.id = assignment.id
        · rw [if_pos (by simpa using hbid)] at hba
          subst hba
          exact ⟨rfl, by simp [hactive]⟩
        · rw [if_neg (by simpa using hbid)] at hba
          subst hba
          exact absurd (haid.trans hid.symm) hbid
      · subst hrec
        exact absurd haid hnew
    · refine
        ⟨{ id := newId, resourceId := assignment.resourceId,
           employeeId := assignment.employeeId, itemId := none,
           assignedBy := assignment.assignedBy,
           assignmentType := AssignmentType.INDIVIDUAL,
           status := AssignmentStatus.RETURNED, quantityAssigned := q,
           assignedAt := assignment.assignedAt, returnedAt := some now,
           returnReason := some reason,
           notes := some ("Partial return from assignment " ++
             toString aid ++ ". " ++ (body.notes.getD "")) },
         ?_, rfl, rfl, rfl, rfl, rfl⟩
      simp [putAssignmentReturn, hfind, hactive, haction, hreason, hq, h1, h2, h3]
  · intro hq h0
    have h1 : ¬ assignment.quantityAssigned ≤ 0 := by omega
    have h2 : ¬ assignment.quantityAssigned > assignment.quantityAssigned := by
      omega
    refine ⟨?_, ?_⟩
    · simp [putAssignmentReturn, hfind, hactive, haction, hreason, hq, h1, h2]
    · intro a ha haid
      simp [putAssignmentReturn, hfind, hactive, haction, hreason, hq, h1, h2,
        replaceAssignment] at ha
      obtain ⟨b, hb, hba⟩ := ha
      by_cases hbid : b.id = assignment.id
      · rw [if_pos (by simpa using hbid)] at hba
        subst hba
        exact ⟨rfl, rfl, rfl, rfl⟩
      · rw [if_neg (by simpa using hbid)] at hba
        subst hba
        exact absurd (haid.trans hid.symm) hbid
  · intro q hq h0
    constructor <;> simp [putAssignmentReturn, hfind, hactive, haction, hq, h0]
  · intro hq
    constructor <;> simp [putAssignmentReturn, hfind, hactive, haction, hq]
  · intro q hq hgt
    by_cases h1 : q ≤ 0
    · constructor <;> simp [putAssignmentReturn, hfind, hactive, haction, hq, h1]
    · constructor <;>
        simp [putAssignmentReturn, hfind, hactive, haction, hq, h1, hgt]

/-- Witness for C5: returning 2 of the 5 assigned units of assignment 21
in `c5db` succeeds. -/
theorem putAssignmentReturn_splits_witness :
    (putAssignmentReturn c5db 21 c5body 99 50).fst.success = true :=
  ((putAssignmentReturn_splits c5db 21 99 50 c5body c5assignment
    "No longer needed" (by decide) (by decide) rfl rfl (by decide)).1 2 rfl
    (by decide) (by decide)).1

/-- C6 counterexample: the two states differ only in the quantity of the
EXCLUSIVE SOFTWARE resource, yet the same request (with POOLED
requested) is accepted at quantity 5 and rejected at quantity 1 by the
legacy pooled-license check, so validation of an EXCLUSIVE resource does
use the quantity field. -/
theorem exclusive_quantity_counterexample :
    (c6db 1).items = (c6db 5).items ∧
    (c6db 1).assignments = (c6db 5).assignments ∧
    (c6db 1).employees = (c6db 5).employees ∧
    ((c6db 1).resources.map fun r => { r with quantity := some 5 }) =
      (c6db 5).resources ∧
    ((c6db 1).resources.map Resource.allocationType) =
      [some AllocationType.EXCLUSIVE] ∧
    (validateAssignmentRequest (c6db 5) c6req).isValid = true ∧
    (validateAssignmentRequest (c6db 1) c6req).isValid = false := by
  refine ⟨rfl, rfl, rfl, rfl, rfl, by decide, by decide⟩

/-- C6 as amended: the allocation-mode pass never reads the quantity of
an EXCLUSIVE resource, and the full validation of an EXCLUSIVE resource
is independent of the quantity except when the resource type is
SOFTWARE and the POOLED category is requested, where the legacy
pooled-license check compares the active-assignment count against the
quantity. -/
theorem exclusive_quantity_not_used
    (r : FetchedResource) (req : CreateAssignmentRequest) (q1 q2 : Option Int) :
    (∀ sug, validateAllocationTypeConstraints { r with quantity := q1 } req
        AllocationType.EXCLUSIVE sug =
      validateAllocationTypeConstraints { r with quantity := q2 } req
        AllocationType.EXCLUSIVE sug) ∧
    (r.allocationType.getD AllocationType.EXCLUSIVE = AllocationType.EXCLUSIVE →
      ¬ (toUpperCase r.typeName = "SOFTWARE" ∧
          req.assignmentType = some AssignmentType.POOLED) →
      validateResourceRequest { r with quantity := q1 } req =
        validateResourceRequest { r with quantity := q2 } req) := by
  constructor
  · intro sug
    rfl
  · intro halloc hnp
    by_cases hhw : toUpperCase r.typeName = "HARDWARE" ∨
        toUpperCase r.typeName = "PHYSICAL"
    · simp only [validateResourceRequest, halloc, hhw, if_true]
      rfl
    · by_cases hsw : toUpperCase r.typeName = "SOFTWARE"
      · have hreq : req.assignmentType ≠ some AssignmentType.POOLED := by
          intro h
          exact hnp ⟨hsw, h⟩
        have hsug : determineAssignmentType r.typeName req.assignmentType ≠
            AssignmentType.POOLED := by
          simp [determineAssignmentType, hhw, hsw, hreq]
        simp only [validateResourceRequest, halloc, hhw, hsw, if_false, if_true,
          eq_self_iff_true]
        simp only [validateSoftwareAssignment, hsug, if_neg]
        rfl
      · by_cases hcl : toUpperCase r.typeName = "CLOUD"
        · simp only [validateResourceRequest, halloc, hhw, hsw, hcl, if_false,
            if_true]
          rfl
        · simp only [validateResourceRequest, halloc, hhw, hsw, hcl, if_false]
          rfl

/-- Witness for the amended C6: on the concrete hardware view, changing
the quantity from 1 to 42 leaves the validation outcome unchanged. -/
theorem exclusive_quantity_not_used_witness :
    validateResourceRequest { c1hwFetched with quantity := some 1 } c1hwreq =
      validateResourceRequest { c1hwFetched with quantity := some 42 } c1hwreq :=
  (exclusive_quantity_not_used c1hwFetched c1hwreq (some 1) (some 42)).2
    (by decide) (by decide)

/-- C1 counterexample: in `c1db` the resource is ACTIVE and EXCLUSIVE,
employee 31 exists, the request references item 12 which is AVAILABLE
and has no active assignment, so none of the four rejection conditions
holds; yet validation rejects (employee 31 already holds the software on
another item, caught by the legacy SOFTWARE pass) and does so without
any errorCode, refuting that validation accepts otherwise. -/
theorem exclusive_validation_counterexample :
    fetchResource c1db 1 = some c1fetched ∧
    c1fetched.status = ResourceStatus.ACTIVE ∧
    c1fetched.allocationType = some AllocationType.EXCLUSIVE ∧
    c1db.employees.contains 31 = true ∧
    c1req.itemId = some 12 ∧
    (¬ ∃ a ∈ c1fetched.assignments, a.status = AssignmentStatus.ACTIVE ∧
      a.itemId = some 12) ∧
    (∃ it ∈ c1fetched.items, it.id = 12 ∧ it.status = ItemStatus.AVAILABLE) ∧
    (validateAssignmentRequest c1db c1req).isValid = false ∧
    (validateAssignmentRequest c1db c1req).errorCode = none := by
  refine ⟨by decide, rfl, rfl, by decide, rfl, by decide, by decide,
    by decide, by decide⟩

/-- C1 as amended: on an existing ACTIVE EXCLUSIVE resource with an
existing employee, validation rejects with NO_AVAILABLE_ITEMS when no
item is referenced and no AVAILABLE item exists, ITEM_REQUIRED when no
item is referenced but AVAILABLE items exist, ITEM_ALREADY_ASSIGNED when
the referenced item has an active assignment, ITEM_NOT_AVAILABLE when
the referenced item is absent from the AVAILABLE items; and it accepts
otherwise provided the resource type is hardware-like (HARDWARE or
PHYSICAL) or unrecognized — for SOFTWARE- or CLOUD-typed EXCLUSIVE
resources the legacy type pass may still reject, without an errorCode. -/
theorem exclusive_validation_rules
    (db : DB) (req : CreateAssignmentRequest) (r : FetchedResource)
    (hfetch : fetchResource db req.resourceId = some r)
    (hactive : r.status = ResourceStatus.ACTIVE)
    (hemp : db.employees.contains req.employeeId = true)
    (halloc : r.allocationType.getD AllocationType.EXCLUSIVE =
      AllocationType.EXCLUSIVE) :
    (req.itemId = none → r.items.length = 0 →
      (validateAssignmentRequest db req).isValid = false ∧
      (validateAssignmentRequest db req).errorCode = some "NO_AVAILABLE_ITEMS") ∧
    (req.itemId = none → r.items.length ≠ 0 →
      (validateAssignmentRequest db req).isValid = false ∧
      (validateAssignmentRequest db req).errorCode = some "ITEM_REQUIRED") ∧
    (∀ i, req.itemId = some i →
      (∃ a ∈ r.assignments, a.status = AssignmentStatus.ACTIVE ∧
        a.itemId = some i) →
      (validateAssignmentRequest db req).isValid = false ∧
      (validateAssignmentRequest db req).errorCode =
        some "ITEM_ALREADY_ASSIGNED") ∧
    (∀ i, req.itemId = some i →
      (¬ ∃ a ∈ r.assignments, a.status = AssignmentStatus.ACTIVE ∧
        a.itemId = some i) →
      (∀ it ∈ r.items, it.id ≠ i) →
      (validateAssignmentRequest db req).isValid = false ∧
      (validateAssignmentRequest db req).errorCode =
        some "ITEM_NOT_AVAILABLE") ∧
    (∀ i, req.itemId = some i →
      (¬ ∃ a ∈ r.assignments, a.status = AssignmentStatus.ACTIVE ∧
        a.itemId = some i) →
      (∃ it ∈ r.items, it.id = i) →
      (toUpperCase r.typeName = "HARDWARE" ∨ toUpperCase r.typeName = "PHYSICAL" ∨
        (toUpperCase r.typeName ≠ "SOFTWARE" ∧ toUpperCase r.typeName ≠ "CLOUD")) →
      (validateAssignmentRequest db req).isValid = true) := by
  rw [validateAssignmentRequest_reduces db req r hfetch hactive hemp]
  refine ⟨?_, ?_, ?_, ?_, ?_⟩
  · intro hitem hlen
    constructor <;>
      simp [validateResourceRequest, halloc, validateAllocationTypeConstraints,
        hitem, hlen]
  · intro hitem hlen
    constructor <;>
      simp [validateResourceRequest, halloc, validateAllocationTypeConstraints,
        hitem, hlen]
  · intro i hitem hdup
    constructor <;>
      simp [validateResourceRequest, halloc, validateAllocationTypeConstraints,
        hitem, List.find?_isSome, List.mem_filter, hdup]
  · intro i hitem hnodup hnone
    have hfi : (r.items.find? (fun it => it.id == i)).isNone = true := by
      have h0 : (r.items.find? (fun it => it.id == i)) = none := by
        simp only [List.find?_eq_none]
        intro x hx
        simpa using hnone x hx
      rw [h0]
      rfl
    constructor <;>
      simp [validateResourceRequest, halloc, validateAllocationTypeConstraints,
        hitem, hfi, List.find?_isSome, List.mem_filter, hnodup]
  · intro i hitem hnodup hexists htype
    have hnotall : ¬ ∀ x ∈ r.items, ¬ x.id = i := by
      push_neg
      obtain ⟨it, hmem, hid⟩ := hexists
      exact ⟨it, hmem, hid⟩
    have hnodup2 : ¬ ∃ x ∈ r.assignments, x.itemId = some i ∧
        x.status = AssignmentStatus.ACTIVE := by
      rintro ⟨x, hx, hit, hst⟩
      exact hnodup ⟨x, hx, hst, hit⟩
    have hnodup3 : ¬ ∃ x ∈ r.assignments, (x.employeeId = req.employeeId ∧
        x.itemId = some i) ∧ x.status = AssignmentStatus.ACTIVE := by
      rintro ⟨x, hx, ⟨he, hit⟩, hst⟩
      exact hnodup ⟨x, hx, hst, hit⟩
    rcases htype with hhw | hph | ⟨hnsw, hncl⟩
    · simp [validateResourceRequest, halloc, validateAllocationTypeConstraints,
        hitem, List.find?_isSome, List.find?_eq_none, List.mem_filter, hnodup,
        hnotall, hhw, validateHardwareAssignment, hnodup2, hnodup3]
    · simp [validateResourceRequest, halloc, validateAllocationTypeConstraints,
        hitem, List.find?_isSome, List.find?_eq_none, List.mem_filter, hnodup,
        hnotall, hph, validateHardwareAssignment, hnodup2, hnodup3]
    · by_cases hhw2 : toUpperCase r.typeName = "HARDWARE" ∨
          toUpperCase r.typeName = "PHYSICAL"
      · rcases hhw2 with hhw | hph
        · simp [validateResourceRequest, halloc, validateAllocationTypeConstraints,
            hitem, List.find?_isSome, List.find?_eq_none, List.mem_filter, hnodup,
            hnotall, hhw, validateHardwareAssignment, hnodup2, hnodup3]
        · simp [validateResourceRequest, halloc, validateAllocationTypeConstraints,
            hitem, List.find?_isSome, List.find?_eq_none, List.mem_filter, hnodup,
            hnotall, hph, validateHardwareAssignment, hnodup2, hnodup3]
      · simp [validateResourceRequest, halloc, validateAllocationTypeConstraints,
          hitem, List.find?_isSome, List.find?_eq_none, List.mem_filter, hnodup,
          hnotall, hhw2, hnsw, hncl]

/-- Witness for the amended C1: on the concrete EXCLUSIVE HARDWARE state
`c1hwdb`, the request for the AVAILABLE item 11 is accepted. -/
theorem exclusive_validation_rules_witness :
    (validateAssignmentRequest c1hwdb c1hwreq).isValid = true :=
  (exclusive_validation_rules c1hwdb c1hwreq c1hwFetched (by decide) (by decide)
      (by decide) (by decide)).2.2.2.2 11 rfl (by decide)
    ⟨{ id := 11, resourceId := 1, status := ItemStatus.AVAILABLE }, by decide,
      rfl⟩ (Or.inl (by decide))

/-- Rejections of the allocation-mode pass always carry both a message
and an errorCode. -/
theorem validateAllocationTypeConstraints_structured (r : FetchedResource)
    (req : CreateAssignmentRequest) (alloc : AllocationType)
    (sug : AssignmentType) :
    (validateAllocationTypeConstraints r req alloc sug).isValid = false →
    (validateAllocationTypeConstraints r req alloc sug).error.isSome = true ∧
    (validateAllocationTypeConstraints r req alloc sug).errorCode.isSome = true := by
  unfold validateAllocationTypeConstraints
  cases alloc <;> cases hi : req.itemId <;> simp only [hi] <;>
    repeat' split <;> try simp

/-- Rejections of the hardware pass always carry a message. -/
theorem validateHardwareAssignment_message (r : FetchedResource)
    (req : CreateAssignmentRequest) (sug : AssignmentType) :
    (validateHardwareAssignment r req sug).isValid = false →
    (validateHardwareAssignment r req sug).error.isSome = true := by
  unfold validateHardwareAssignment
  cases hi : req.itemId <;> simp only [hi] <;> repeat' split <;> try simp

/-- Rejections of the software pass always carry a message. -/
theorem validateSoftwareAssignment_message (r : FetchedResource)
    (req : CreateAssignmentRequest) (sug : AssignmentType) :
    (validateSoftwareAssignment r req sug).isValid = false →
    (validateSoftwareAssignment r req sug).error.isSome = true := by
  unfold validateSoftwareAssignment
  cases hi : req.itemId <;> simp only [hi] <;> repeat' split <;> try simp
  all_goals rename_i r2 heq
  all_goals intro h
  all_goals split at heq <;> try split at heq
  all_goals try simp_all
  all_goals rw [← heq]
  all_goals rfl

/-- Rejections of the cloud pass always carry a message. -/
theorem validateCloudAssignment_message (r : FetchedResource)
    (req : CreateAssignmentRequest) (sug : AssignmentType) :
    (validateCloudAssignment r req sug).isValid = false →
    (validateCloudAssignment r req sug).error.isSome = true := by
  unfold validateCloudAssignment
  cases hi : req.itemId <;> simp only [hi] <;> repeat' split <;> try simp

/-- Rejections of the fetched-resource validation core carry a message. -/
theorem validateResourceRequest_message (r : FetchedResource)
    (req : CreateAssignmentRequest) :
    (validateResourceRequest r req).isValid = false →
    (validateResourceRequest r req).error.isSome = true := by
  simp only [validateResourceRequest]
  split
  case isTrue hcond =>
    intro _
    exact ((validateAllocationTypeConstraints_structured r req _ _) hcond).1
  case isFalse hcond =>
    repeat' split
    · exact fun h => validateHardwareAssignment_message r req _ h
    · exact fun h => validateSoftwareAssignment_message r req _ h
    · exact fun h => validateCloudAssignment_message r req _ h
    · intro h
      simp at h

/-- Rejections of the full validation pipeline carry a message. -/
theorem validateAssignmentRequest_message (db : DB)
    (req : CreateAssignmentRequest) :
    (validateAssignmentRequest db req).isValid = false →
    (validateAssignmentRequest db req).error.isSome = true := by
  unfold validateAssignmentRequest
  cases hf : fetchResource db req.resourceId
  · simp
  · simp only []
    split
    · intro _
      rfl
    · split
      · intro _
        rfl
      · exact validateResourceRequest_message _ _

/-- C8 counterexample: the capacity views throw an opaque exception when
the resource does not exist instead of returning a structured rejection,
and a hardware-pass rejection carries no errorCode — so not every
rejection is a structured code plus message. -/
theorem structured_rejections_counterexample :
    getAvailableLicenseCount emptyDB 1 = Except.error "Resource not found" ∧
    getSharedResourceCapacity emptyDB 1 = Except.error "Resource not found" ∧
    (validateHardwareAssignment c8fetched c8req AssignmentType.INDIVIDUAL).isValid
      = false ∧
    (validateHardwareAssignment c8fetched c8req AssignmentType.INDIVIDUAL).errorCode
      = none := by
  refine ⟨rfl, rfl, rfl, rfl⟩

/-- C8 as amended: allocation-mode rejections carry errorCode and
message, every validation rejection carries a message, failed creations
carry a message, failed status transitions carry both a message and an
errorCode, but the legacy type-specific rejections may omit the
errorCode and the capacity views throw an exception exactly when the
resource does not exist. -/
theorem structured_rejections :
    (∀ (r : FetchedResource) (req : CreateAssignmentRequest)
        (alloc : AllocationType) (sug : AssignmentType),
      (validateAllocationTypeConstraints r req alloc sug).isValid = false →
      (validateAllocationTypeConstraints r req alloc sug).error.isSome = true ∧
      (validateAllocationTypeConstraints r req alloc sug).errorCode.isSome = true) ∧
    (∀ (db : DB) (req : CreateAssignmentRequest),
      (validateAssignmentRequest db req).isValid = false →
      (validateAssignmentRequest db req).error.isSome = true) ∧
    (∀ (db : DB) (req : CreateAssignmentRequest) (actor nid now : Nat),
      (createAssignment db req actor nid now).fst.success = false →
      (createAssignment db req actor nid now).fst.error.isSome = true) ∧
    (∀ (db : DB) (aid : Nat) (upd : UpdateAssignmentRequest) (now : Nat)
        (aok tok : Bool),
      (updateAssignmentStatus db aid upd now aok tok).fst.success = false →
      (updateAssignmentStatus db aid upd now aok tok).fst.error.isSome = true ∧
      (updateAssignmentStatus db aid upd now aok tok).fst.errorCode.isSome = true) ∧
    (∀ (db : DB) (rid : Nat),
      (∃ e, getAvailableLicenseCount db rid = Except.error e) ↔
        db.resources.find? (fun x => x.id == rid) = none) ∧
    (∀ (db : DB) (rid : Nat),
      (∃ e, getSharedResourceCapacity db rid = Except.error e) ↔
        db.resources.find? (fun x => x.id == rid) = none) := by
  refine ⟨validateAllocationTypeConstraints_structured,
    validateAssignmentRequest_message, ?_, ?_, ?_, ?_⟩
  · intro db req actor nid now
    by_cases hv : (validateAssignmentRequest db req).isValid = false
    · intro _
      have hmsg := validateAssignmentRequest_message db req hv
      simp [createAssignment, hv, hmsg]
    · intro h
      simp [createAssignment, hv] at h
  · intro db aid upd now aok tok
    unfold updateAssignmentStatus
    cases hf : db.assignments.find? (fun a => a.id == aid)
    · simp
    · simp only []
      intro h
      cases aok <;> cases tok <;> repeat' split at h <;> simp_all
  · intro db rid
    unfold getAvailableLicenseCount
    cases hf : db.resources.find? (fun x => x.id == rid) <;> simp only [] <;>
      repeat' split <;> simp
    all_goals exact iff_of_true ⟨"Resource not found", rfl⟩ trivial
  · intro db rid
    unfold getSharedResourceCapacity
    cases hf : db.resources.find? (fun x => x.id == rid) <;> simp only [] <;>
      repeat' split <;> simp
    all_goals exact iff_of_true ⟨"Resource not found", rfl⟩ trivial

/-- Witness for the amended C8: the failed transition on `c7db` with a
broken audit sink still returns a structured message. -/
theorem structured_rejections_witness :
    (updateAssignmentStatus c7db 21 c7upd 20 false true).fst.error.isSome = true :=
  (structured_rejections.2.2.2.1 c7db 21 c7upd 20 false true (by decide)).1
